import Mathlib

/-!
Shallow embedding of the connection core of SerialSSHTerm
(src/core/connection.rs, src/core/serial_manager.rs, src/core/ssh_manager.rs).

Pure data is translated directly; the effectful operations (`connect`,
`disconnect`, `send`, `read`, the host-key verification callback and the
connection actor loop) become Lean functions that take the outcome of each
environment interaction (OS serial port, SSH channel, known-hosts store,
decision channel, event channel) as an explicit argument and return the
updated manager state together with the Rust function's result.
-/

deriving instance DecidableEq for Except

namespace SerialSSHTerm

/-- Connection type, from `ConnectionType` in connection.rs. -/
inductive ConnectionType where
  | serial
  | ssh
  deriving DecidableEq, Repr

/-- Connection state, from `ConnectionState` in connection.rs. -/
inductive ConnectionState where
  | disconnected
  | connecting
  | connected
  | error
  deriving DecidableEq, Repr

/-- Events sent from the connection to the UI, from `ConnectionEvent` in
connection.rs. The oneshot decision channel carried by `HostKeyUnknown` is
modelled separately (see `DecisionOutcome`), so the event here carries only
its data fields. -/
inductive ConnectionEvent where
  | connectedEvt (connType : ConnectionType) (description : String)
  | dataReceived (data : List Nat)
  | disconnectedEvt
  | errorEvt (msg : String)
  | hostKeyUnknown (host : String) (keyType : String) (fingerprint : String)
      (isKeyChanged : Bool)
  deriving DecidableEq, Repr

/-- Commands sent from the UI to the connection, from `ConnectionCommand`. -/
inductive ConnectionCommand where
  | sendData (data : List Nat)
  | disconnectCmd
  deriving DecidableEq, Repr

/-! ## Serial transport (serial_manager.rs) -/

/-- Data bits, from `serialport::DataBits`. -/
inductive DataBits where
  | five
  | six
  | seven
  | eight
  deriving DecidableEq, Repr

/-- Parity, from `serialport::Parity`. -/
inductive Parity where
  | par_none
  | odd
  | even
  deriving DecidableEq, Repr

/-- Stop bits, from `serialport::StopBits`. -/
inductive StopBits where
  | one
  | two
  deriving DecidableEq, Repr

/-- Flow control, from `serialport::FlowControl`. -/
inductive FlowControl where
  | fc_none
  | hardware
  | software
  deriving DecidableEq, Repr

/-- Serial configuration, from `SerialConfig` in serial_manager.rs.
The `Duration` timeout is kept as its millisecond count. -/
structure SerialConfig where
  port : String
  baudrate : Nat
  data_bits : DataBits
  parity : Parity
  stop_bits : StopBits
  flow_control : FlowControl
  timeout_ms : Nat
  deriving DecidableEq, Repr

/-- Translation of `SerialConfig::from_params` (serial_manager.rs lines
87-121): builds a configuration from raw user parameters, coercing every
out-of-range value to a default instead of rejecting it. -/
def SerialConfig.from_params (port : String) (baudrate : Nat) (data_bits : Nat)
    (parity : String) (stop_bits : Nat) (flow_control : String)
    (timeout_ms : Nat) : SerialConfig :=
  { port := port
    baudrate := baudrate
    data_bits :=
      match data_bits with
      | 5 => DataBits.five
      | 6 => DataBits.six
      | 7 => DataBits.seven
      | _ => DataBits.eight
    parity :=
      match parity with
      | "Odd" => Parity.odd
      | "Even" => Parity.even
      | _ => Parity.par_none
    stop_bits :=
      match stop_bits with
      | 2 => StopBits.two
      | _ => StopBits.one
    flow_control :=
      match flow_control with
      | "Hardware" => FlowControl.hardware
      | "Software" => FlowControl.software
      | _ => FlowControl.fc_none
    timeout_ms := timeout_ms }

/-- Serial connection manager state, from `SerialManager` in
serial_manager.rs. The open `SerialStream` handle is modelled by its
presence (`Option Unit`), which is all the embedded operations inspect. -/
structure SerialManager where
  config : SerialConfig
  port : Option Unit
  state : ConnectionState
  bytes_sent : Nat
  bytes_received : Nat
  deriving DecidableEq, Repr

/-- Translation of `SerialManager::new`. -/
def SerialManager.new (config : SerialConfig) : SerialManager :=
  { config := config
    port := none
    state := ConnectionState.disconnected
    bytes_sent := 0
    bytes_received := 0 }

/-- Translation of `SerialManager::connect` (serial_manager.rs lines
148-175). `openResult` is the outcome of
`tokio_serial::new(..).open_native_async()`; on failure the `?` operator
returns early, leaving the state at `Connecting`. -/
def SerialManager.connect (m : SerialManager) (openResult : Except String Unit) :
    SerialManager × Except String Unit :=
  if m.state = ConnectionState.connected then
    (m, Except.error "Déjà connecté")
  else
    let m1 := { m with state := ConnectionState.connecting }
    match openResult with
    | Except.error e => (m1, Except.error e)
    | Except.ok _ =>
        ({ m1 with
            port := some ()
            state := ConnectionState.connected
            bytes_sent := 0
            bytes_received := 0 },
          Except.ok ())

/-- Translation of `SerialManager::disconnect` (serial_manager.rs lines
177-192): early success when already disconnected, otherwise drop the port
handle and mark disconnected. -/
def SerialManager.disconnect (m : SerialManager) :
    SerialManager × Except String Unit :=
  if m.state = ConnectionState.disconnected then
    (m, Except.ok ())
  else
    ({ m with port := none, state := ConnectionState.disconnected },
      Except.ok ())

/-- Translation of `SerialManager::send` (serial_manager.rs lines 194-201).
`writeResult` is the outcome of `port.write(data)` (the number of bytes the
OS accepted, possibly fewer than `data.length`); `flushResult` is the
outcome of `port.flush()`. -/
def SerialManager.send (m : SerialManager) (data : List Nat)
    (writeResult : Except String Nat) (flushResult : Except String Unit) :
    SerialManager × Except String Nat :=
  match m.port with
  | none => (m, Except.error "Port série non connecté")
  | some _ =>
      match writeResult with
      | Except.error e => (m, Except.error e)
      | Except.ok written =>
          match flushResult with
          | Except.error e => (m, Except.error e)
          | Except.ok _ =>
              ({ m with bytes_sent := m.bytes_sent + written },
                Except.ok written)

/-- Outcome of the OS-level `port.read(&mut buf)` call inside
`SerialManager::read`: bytes read (possibly zero, meaning EOF), a timeout,
a would-block condition, or another I/O error. -/
inductive IoReadResult where
  | ok (data : List Nat)
  | timedOut
  | wouldBlock
  | ioErr (msg : String)
  deriving DecidableEq, Repr

/-- Translation of `SerialManager::read` (serial_manager.rs lines 203-226):
zero bytes is EOF and marks the manager disconnected; `n` bytes are
returned and counted; timeout and would-block yield empty results with no
state change; any other error marks the state `Error` and is reported. -/
def SerialManager.read (m : SerialManager) (r : IoReadResult) :
    SerialManager × Except String (List Nat) :=
  match m.port with
  | none => (m, Except.error "Port série non connecté")
  | some _ =>
      match r with
      | IoReadResult.ok [] =>
          ({ m with state := ConnectionState.disconnected }, Except.ok [])
      | IoReadResult.ok data =>
          ({ m with bytes_received := m.bytes_received + data.length },
            Except.ok data)
      | IoReadResult.timedOut => (m, Except.ok [])
      | IoReadResult.wouldBlock => (m, Except.ok [])
      | IoReadResult.ioErr e =>
          ({ m with state := ConnectionState.error }, Except.error e)

/-! ## SSH transport (ssh_manager.rs) -/

/-- Authentication method, from `SshAuthMethod` in ssh_manager.rs. -/
inductive SshAuthMethod where
  | password (secret : String)
  | keyFile (privateKeyPath : String) (passphrase : Option String)
  deriving DecidableEq, Repr

/-- SSH configuration, from `SshConfig` in ssh_manager.rs. -/
structure SshConfig where
  host : String
  port : Nat
  username : String
  auth_method : SshAuthMethod
  connect_timeout_secs : Nat
  deriving DecidableEq, Repr

/-- Outcome of `check_known_hosts(&host, port, &key)` in the host-key
verification callback: key known and matching (`Ok(true)`), host absent
(`Ok(false)`), stored key different (`Err(KeyChanged{line})`), or any
other lookup error (`Err(_)`). -/
inductive KnownHostsLookup where
  | okKnown
  | okUnknown
  | errKeyChanged (line : Nat)
  | errOther (msg : String)
  deriving DecidableEq, Repr

/-- Timeout, in seconds, of the wait on the host-key decision channel
(`Duration::from_secs(300)` in `check_server_key`). -/
def hostKeyDecisionTimeoutSecs : Nat := 300

/-- Behaviour of the oneshot decision channel awaited by
`check_server_key`: either the UI answers `accept` after `tSecs` seconds,
or the sender is dropped after `tSecs` seconds without an answer. -/
inductive DecisionOutcome where
  | answered (tSecs : Nat) (accept : Bool)
  | dropped (tSecs : Nat)
  deriving DecidableEq, Repr

/-- Translation of
`tokio::time::timeout(Duration::from_secs(300), decision_rx).await
  .ok().and_then(Result::ok).unwrap_or(false)`:
an answer arriving before the 300-second bound is used as is; an answer
after the bound, a timed-out wait, or a dropped sender all resolve to
`false` (reject). -/
def decisionResolve : DecisionOutcome → Bool
  | DecisionOutcome.answered t b =>
      if t < hostKeyDecisionTimeoutSecs then b else false
  | DecisionOutcome.dropped _ => false

/-- Result of one run of the `check_server_key` callback: the
`HostKeyUnknown` events it sends on the event channel, the boolean it
returns to the SSH handshake, and whether it called `learn_known_hosts`
to persist the presented key. -/
structure HostKeyCheck where
  events : List ConnectionEvent
  accepted : Bool
  learned : Bool
  deriving DecidableEq, Repr

/-- Translation of `SshClientHandler::check_server_key` (ssh_manager.rs
lines 92-169). `host`, `keyType` and `fingerprint` describe the presented
server key; `lookup` is the known-hosts store's answer and `decision` the
behaviour of the UI on the oneshot channel. A known matching key is
accepted silently; a changed key raises `HostKeyUnknown` with
`is_key_changed = true`; an unknown host or any other lookup error raises
it with `is_key_changed = false`; in both interactive cases the bounded
decision wait gates acceptance and an accepted key is persisted with
`learn_known_hosts`. -/
def check_server_key (host keyType fingerprint : String)
    (lookup : KnownHostsLookup) (decision : DecisionOutcome) : HostKeyCheck :=
  match lookup with
  | KnownHostsLookup.okKnown =>
      { events := [], accepted := true, learned := false }
  | KnownHostsLookup.errKeyChanged _ =>
      let accepted := decisionResolve decision
      { events :=
          [ConnectionEvent.hostKeyUnknown host keyType fingerprint true]
        accepted := accepted
        learned := accepted }
  | KnownHostsLookup.okUnknown =>
      let accepted := decisionResolve decision
      { events :=
          [ConnectionEvent.hostKeyUnknown host keyType fingerprint false]
        accepted := accepted
        learned := accepted }
  | KnownHostsLookup.errOther _ =>
      let accepted := decisionResolve decision
      { events :=
          [ConnectionEvent.hostKeyUnknown host keyType fingerprint false]
        accepted := accepted
        learned := accepted }

/-- Network-level outcome of the `client::connect` call inside
`SshManager::connect`: a transport error, expiry of the
`connect_timeout_secs + 2` bound, or an established session whose
handshake ran `check_server_key` against the presented server key
(described by `keyType`/`fingerprint`, the store's `lookup` answer and
the UI `decision`). -/
inductive EstablishInput where
  | netErr (msg : String)
  | netTimeout
  | netOk (keyType fingerprint : String) (lookup : KnownHostsLookup)
      (decision : DecisionOutcome)
  deriving DecidableEq, Repr

/-- Modelled from the spec: russh's `client::connect` (an external crate,
not part of this repository) invokes the handler's `check_server_key`
during the handshake, and "the verification callback's return value
(accept/reject) directly gates whether the SSH handshake proceeds;
rejection must abort the connection attempt". The function returns the
events the callback emitted and the handshake outcome. -/
def sshEstablish (host : String) (inp : EstablishInput) :
    List ConnectionEvent × Except String Unit :=
  match inp with
  | EstablishInput.netErr msg => ([], Except.error msg)
  | EstablishInput.netTimeout => ([], Except.error "Timeout de connexion SSH")
  | EstablishInput.netOk keyType fingerprint lookup decision =>
      let c := check_server_key host keyType fingerprint lookup decision
      (c.events,
        if c.accepted then Except.ok ()
        else Except.error "Clé de serveur refusée")

/-- Outcome of the authentication step in `SshManager::connect`: an error
from the authenticate call itself, a completed call whose result is not a
success, or a success. -/
inductive AuthOutcome where
  | authErr (msg : String)
  | failed
  | success
  deriving DecidableEq, Repr

/-- SSH connection manager state, from `SshManager` in ssh_manager.rs.
The russh session handle and the session channel are modelled by their
presence, and the injected event sender by a flag recording whether
`init_event_sender` was called. -/
structure SshManager where
  config : SshConfig
  handle : Option Unit
  channel : Option Unit
  state : ConnectionState
  bytes_sent : Nat
  bytes_received : Nat
  event_tx : Bool
  deriving DecidableEq, Repr

/-- Translation of `SshManager::new`. -/
def SshManager.new (config : SshConfig) : SshManager :=
  { config := config
    handle := none
    channel := none
    state := ConnectionState.disconnected
    bytes_sent := 0
    bytes_received := 0
    event_tx := false }

/-- Translation of `SshManager::init_event_sender`. -/
def SshManager.init_event_sender (m : SshManager) : SshManager :=
  { m with event_tx := true }

/-- Translation of `SshManager::connect` (ssh_manager.rs lines 211-327).
The environment outcomes of session establishment (`est`), authentication
(`auth`), `channel_open_session` (`chanOpen`), `request_pty` (`pty`) and
`request_shell` (`shell`) are explicit arguments; the result is the
updated manager, the events emitted during host-key verification, and the
Rust return value. Every failure after establishment resets the state to
`Disconnected`, except an error from the authenticate call itself, where
the `?` operator returns early with the state still `Connecting`. -/
def SshManager.connect (m : SshManager) (est : EstablishInput)
    (auth : AuthOutcome) (chanOpen pty shell : Except String Unit) :
    SshManager × List ConnectionEvent × Except String Unit :=
  if m.state = ConnectionState.connected then
    (m, [], Except.error "Déjà connecté")
  else if m.event_tx = false then
    (m, [], Except.error "Canal d'événements non initialisé")
  else
    let m1 := { m with state := ConnectionState.connecting }
    let (evs, estRes) := sshEstablish m.config.host est
    match estRes with
    | Except.error e =>
        ({ m1 with state := ConnectionState.disconnected }, evs,
          Except.error e)
    | Except.ok _ =>
        match auth with
        | AuthOutcome.authErr e => (m1, evs, Except.error e)
        | AuthOutcome.failed =>
            ({ m1 with state := ConnectionState.disconnected }, evs,
              Except.error "Authentification SSH échouée")
        | AuthOutcome.success =>
            match chanOpen with
            | Except.error e =>
                ({ m1 with state := ConnectionState.disconnected }, evs,
                  Except.error e)
            | Except.ok _ =>
                match pty with
                | Except.error e =>
                    ({ m1 with state := ConnectionState.disconnected }, evs,
                      Except.error e)
                | Except.ok _ =>
                    match shell with
                    | Except.error e =>
                        ({ m1 with state := ConnectionState.disconnected },
                          evs, Except.error e)
                    | Except.ok _ =>
                        ({ m1 with
                            handle := some ()
                            channel := some ()
                            state := ConnectionState.connected
                            bytes_sent := 0
                            bytes_received := 0 },
                          evs, Except.ok ())

/-- Translation of `SshManager::disconnect` (ssh_manager.rs lines
329-353): early success when already disconnected, otherwise best-effort
close of the channel and session, then mark disconnected. -/
def SshManager.disconnect (m : SshManager) :
    SshManager × Except String Unit :=
  if m.state = ConnectionState.disconnected then
    (m, Except.ok ())
  else
    ({ m with
        channel := none
        handle := none
        state := ConnectionState.disconnected },
      Except.ok ())

/-- Translation of `SshManager::send` (ssh_manager.rs lines 355-360).
`dataResult` is the outcome of `channel.data(data)`; on success the full
length of `data` is counted and returned. -/
def SshManager.send (m : SshManager) (data : List Nat)
    (dataResult : Except String Unit) : SshManager × Except String Nat :=
  match m.channel with
  | none => (m, Except.error "Canal SSH non disponible")
  | some _ =>
      match dataResult with
      | Except.error e => (m, Except.error e)
      | Except.ok _ =>
          ({ m with bytes_sent := m.bytes_sent + data.length },
            Except.ok data.length)

/-- Outcome of the bounded `channel.wait()` inside `SshManager::read`: a
data or extended-data message, an EOF or Close message, a Success or any
other control message, a closed channel (`Ok(None)`), or expiry of the
10-millisecond wait. -/
inductive ChannelWait where
  | dataMsg (data : List Nat)
  | extendedDataMsg (data : List Nat)
  | eofMsg
  | closeMsg
  | successMsg
  | otherCtl
  | chanClosed
  | waitTimeout
  deriving DecidableEq, Repr

/-- Translation of `SshManager::read` (ssh_manager.rs lines 362-395):
data and extended-data messages yield their bytes and are counted; EOF,
Close and a closed channel mark the manager disconnected and yield an
empty result; other control messages and a timed-out wait yield an empty
result with no state change; none of these outcomes is an error. -/
def SshManager.read (m : SshManager) (w : ChannelWait) :
    SshManager × Except String (List Nat) :=
  match m.channel with
  | none => (m, Except.error "Canal SSH non disponible")
  | some _ =>
      match w with
      | ChannelWait.dataMsg data =>
          ({ m with bytes_received := m.bytes_received + data.length },
            Except.ok data)
      | ChannelWait.extendedDataMsg data =>
          ({ m with bytes_received := m.bytes_received + data.length },
            Except.ok data)
      | ChannelWait.eofMsg =>
          ({ m with state := ConnectionState.disconnected }, Except.ok [])
      | ChannelWait.closeMsg =>
          ({ m with state := ConnectionState.disconnected }, Except.ok [])
      | ChannelWait.successMsg => (m, Except.ok [])
      | ChannelWait.otherCtl => (m, Except.ok [])
      | ChannelWait.chanClosed =>
          ({ m with state := ConnectionState.disconnected }, Except.ok [])
      | ChannelWait.waitTimeout => (m, Except.ok [])

/-! ## Connection actor (connection.rs, `spawn_connection_actor`)

The actor's I/O loop (connection.rs lines 174-225) waits, commands first,
on the next UI command or on the next `read` completion. One iteration of
the loop is driven by one `LoopInput`, recording which `tokio::select!`
branch fired and the outcome of the transport call in that branch. -/

/-- One resolved iteration of the actor loop:
a `SendData` command whose `send` succeeded or failed, a `Disconnect`
command, a closed command channel, a read completing with non-empty data
(`consumerAlive` records whether `event_tx.send(DataReceived ..)`
succeeded), a read completing empty (with the transport state it left
behind), or a read error. -/
inductive LoopInput where
  | cmdSendOk (data : List Nat)
  | cmdSendErr (data : List Nat) (msg : String)
  | cmdDisconnect
  | cmdClosed
  | readData (b : Nat) (bs : List Nat) (consumerAlive : Bool)
  | readEmpty (stateAfter : ConnectionState)
  | readErr (msg : String)
  deriving DecidableEq, Repr

/-- Translation of the actor's I/O loop (connection.rs lines 174-225) as a
function of the resolved loop iterations: returns the events the actor
passes to `event_tx.send` from the loop on, and whether the loop exited
(`true`) or the iteration list ran out with the loop still running
(`false`). A failed `DataReceived` send makes the actor disconnect and
break without attempting any further event. -/
def actorLoop : List LoopInput → List ConnectionEvent × Bool
  | [] => ([], false)
  | LoopInput.cmdSendOk _ :: rest => actorLoop rest
  | LoopInput.cmdSendErr _ msg :: _ =>
      ([ConnectionEvent.errorEvt msg], true)
  | LoopInput.cmdDisconnect :: _ =>
      ([ConnectionEvent.disconnectedEvt], true)
  | LoopInput.cmdClosed :: _ =>
      ([ConnectionEvent.disconnectedEvt], true)
  | LoopInput.readData b bs true :: rest =>
      let r := actorLoop rest
      (ConnectionEvent.dataReceived (b :: bs) :: r.1, r.2)
  | LoopInput.readData _ _ false :: _ => ([], true)
  | LoopInput.readEmpty s :: rest =>
      if s = ConnectionState.disconnected ∨ s = ConnectionState.error then
        ([ConnectionEvent.disconnectedEvt], true)
      else actorLoop rest
  | LoopInput.readErr msg :: _ =>
      ([ConnectionEvent.errorEvt msg], true)

/-- Translation of one actor run (connection.rs lines 151-233): phase 1
runs `connect()`, emitting `Connected` on success and `Error` plus an
immediate return on failure; phase 2 is `actorLoop`. Returns the full
list of events the actor passes to `event_tx.send`, and whether the run
reached its end. -/
def actorRun (connectResult : Except String (ConnectionType × String))
    (loop : List LoopInput) : List ConnectionEvent × Bool :=
  match connectResult with
  | Except.error e => ([ConnectionEvent.errorEvt e], true)
  | Except.ok td =>
      let r := actorLoop loop
      (ConnectionEvent.connectedEvt td.1 td.2 :: r.1, r.2)

/-- Whether an event is one of the terminal events `Error` or
`Disconnected`. -/
def isTerminalEvent : ConnectionEvent → Bool
  | ConnectionEvent.disconnectedEvt => true
  | ConnectionEvent.errorEvt _ => true
  | _ => false

/-- Number of terminal events (`Error` or `Disconnected`) in a trace. -/
def terminalCount (evs : List ConnectionEvent) : Nat :=
  (evs.filter isTerminalEvent).length

/-- Whether the actor loop, run on these iterations, exits through the
branch where a `DataReceived` send fails because the consumer is gone
(connection.rs lines 201-205). -/
def consumerGoneExit : List LoopInput → Bool
  | [] => false
  | LoopInput.cmdSendOk _ :: rest => consumerGoneExit rest
  | LoopInput.readData _ _ true :: rest => consumerGoneExit rest
  | LoopInput.readData _ _ false :: _ => true
  | LoopInput.readEmpty s :: rest =>
      if s = ConnectionState.disconnected ∨ s = ConnectionState.error then
        false
      else consumerGoneExit rest
  | _ :: _ => false

/-! ### Actor under the bounded event channel (backpressure model)

The event channel is `async_channel::bounded(128)` (connection.rs line
145). Modelled from the async_channel crate's contract (an external
crate, not part of this repository): `Sender::send(..).await` returns an
error as soon as the channel is closed, and otherwise waits while the
channel holds `capacity` messages. Under this claim's scenario — a
receiver that is never drained — a wait on a full open channel never
completes. -/

/-- State of the bounded event channel: number of queued events and
whether the receiving side has been dropped (channel closed). -/
structure EventChan where
  queued : Nat
  closed : Bool
  deriving DecidableEq, Repr

/-- Capacity of the event channel, from `async_channel::bounded(128)`. -/
def eventChanCapacity : Nat := 128

/-- Outcome of one `event_tx.send(..).await` under a never-drained
receiver: delivered into the queue, failed because the channel is closed,
or suspended forever because the channel is full and open. -/
inductive SendOutcome where
  | delivered (c : EventChan)
  | failedClosed
  | blockedFull
  deriving DecidableEq, Repr

/-- Send on the bounded event channel under a never-drained receiver
(modelled from the async_channel contract, see above). -/
def chanSend (c : EventChan) : SendOutcome :=
  if c.closed then SendOutcome.failedClosed
  else if eventChanCapacity ≤ c.queued then SendOutcome.blockedFull
  else SendOutcome.delivered { queued := c.queued + 1, closed := c.closed }

/-- One resolved iteration of the actor loop for the backpressure model;
the outcome of each event send is decided by the channel state rather
than recorded in the input. -/
inductive BPInput where
  | bpCmdSendOk
  | bpCmdSendErr
  | bpCmdDisconnect
  | bpReadData
  | bpReadEmpty (stateAfter : ConnectionState)
  | bpReadErr
  deriving DecidableEq, Repr

/-- Outcome of an actor run in the backpressure model: the loop exited,
the actor is suspended forever inside an `event_tx.send(..).await` on a
full open never-drained channel, or the iteration list ran out with the
loop still running. -/
inductive BPOutcome where
  | terminated
  | blockedForever
  | stillRunning
  deriving DecidableEq, Repr

/-- Translation of the actor's I/O loop (connection.rs lines 174-225)
against the bounded event channel under a never-drained receiver. Each
branch performs the same transport calls and event sends as the source;
an event send on a full open channel suspends the actor forever
(`blockedForever`), an event send on a closed channel fails and is
discarded by the `let _ =` bindings, except the `DataReceived` send whose
failure makes the actor disconnect and break. -/
def actorLoopBP (c : EventChan) : List BPInput → BPOutcome
  | [] => BPOutcome.stillRunning
  | BPInput.bpCmdSendOk :: rest => actorLoopBP c rest
  | BPInput.bpCmdSendErr :: _ =>
      match chanSend c with
      | SendOutcome.blockedFull => BPOutcome.blockedForever
      | _ => BPOutcome.terminated
  | BPInput.bpCmdDisconnect :: _ =>
      match chanSend c with
      | SendOutcome.blockedFull => BPOutcome.blockedForever
      | _ => BPOutcome.terminated
  | BPInput.bpReadData :: rest =>
      match chanSend c with
      | SendOutcome.delivered c2 => actorLoopBP c2 rest
      | SendOutcome.failedClosed => BPOutcome.terminated
      | SendOutcome.blockedFull => BPOutcome.blockedForever
  | BPInput.bpReadEmpty s :: rest =>
      if s = ConnectionState.disconnected ∨ s = ConnectionState.error then
        match chanSend c with
        | SendOutcome.blockedFull => BPOutcome.blockedForever
        | _ => BPOutcome.terminated
      else actorLoopBP c rest
  | BPInput.bpReadErr :: _ =>
      match chanSend c with
      | SendOutcome.blockedFull => BPOutcome.blockedForever
      | _ => BPOutcome.terminated

/-- Whether a loop iteration makes the actor attempt an event send on the
channel in the branch it resolves. -/
def BPInput.emits : BPInput → Bool
  | BPInput.bpCmdSendOk => false
  | BPInput.bpCmdSendErr => true
  | BPInput.bpCmdDisconnect => true
  | BPInput.bpReadData => true
  | BPInput.bpReadEmpty s =>
      if s = ConnectionState.disconnected ∨ s = ConnectionState.error then
        true
      else false
  | BPInput.bpReadErr => true

/-! ## Sample values used to instantiate the theorems -/

/-- Serial configuration used to instantiate theorems on concrete input. -/
def sampleSerialConfig : SerialConfig :=
  { port := "COM1"
    baudrate := 9600
    data_bits := DataBits.eight
    parity := Parity.par_none
    stop_bits := StopBits.one
    flow_control := FlowControl.fc_none
    timeout_ms := 10 }

/-- SSH configuration used to instantiate theorems on concrete input. -/
def sampleSshConfig : SshConfig :=
  { host := "example.test"
    port := 22
    username := "user"
    auth_method := SshAuthMethod.password "pw"
    connect_timeout_secs := 10 }

/-- Freshly constructed serial manager (never connected). -/
def serialFresh : SerialManager := SerialManager.new sampleSerialConfig

/-- Serial manager in the `Connected` state with an open port handle. -/
def serialConnected : SerialManager :=
  { SerialManager.new sampleSerialConfig with
      port := some ()
      state := ConnectionState.connected }

/-- Freshly constructed SSH manager (never connected). -/
def sshFresh : SshManager := SshManager.new sampleSshConfig

/-- SSH manager in the `Connected` state with session and channel handles. -/
def sshConnected : SshManager :=
  { SshManager.new sampleSshConfig with
      handle := some ()
      channel := some ()
      state := ConnectionState.connected
      event_tx := true }

end SerialSSHTerm

namespace SerialSSHTerm

/-! ## Theorems -/

/-- C10: `SerialConfig::from_params` never rejects its input; it coerces
every out-of-range value to a default — data bits outside {5, 6, 7}
become `Eight`, parity strings other than "Odd" or "Even" become `None`,
stop-bit values other than 2 become `One`, flow-control strings other
than "Hardware" or "Software" become `None` — while port, baudrate and
timeout are passed through unchanged. -/
theorem c10_from_params_coerces_out_of_range
    (port : String) (baudrate : Nat) (data_bits : Nat) (parity : String)
    (stop_bits : Nat) (flow_control : String) (timeout_ms : Nat) :
    (data_bits ≠ 5 → data_bits ≠ 6 → data_bits ≠ 7 →
      (SerialConfig.from_params port baudrate data_bits parity stop_bits
        flow_control timeout_ms).data_bits = DataBits.eight) ∧
    (parity ≠ "Odd" → parity ≠ "Even" →
      (SerialConfig.from_params port baudrate data_bits parity stop_bits
        flow_control timeout_ms).parity = Parity.par_none) ∧
    (stop_bits ≠ 2 →
      (SerialConfig.from_params port baudrate data_bits parity stop_bits
        flow_control timeout_ms).stop_bits = StopBits.one) ∧
    (flow_control ≠ "Hardware" → flow_control ≠ "Software" →
      (SerialConfig.from_params port baudrate data_bits parity stop_bits
        flow_control timeout_ms).flow_control = FlowControl.fc_none) ∧
    (SerialConfig.from_params port baudrate data_bits parity stop_bits
      flow_control timeout_ms).port = port ∧
    (SerialConfig.from_params port baudrate data_bits parity stop_bits
      flow_control timeout_ms).baudrate = baudrate ∧
    (SerialConfig.from_params port baudrate data_bits parity stop_bits
      flow_control timeout_ms).timeout_ms = timeout_ms := by
  refine ⟨?_, ?_, ?_, ?_, rfl, rfl, rfl⟩
  · intro h5 h6 h7
    simp only [SerialConfig.from_params]
  · intro ho he
    simp only [SerialConfig.from_params]
  · intro h2
    simp only [SerialConfig.from_params]
  · intro hh hs
    simp only [SerialConfig.from_params]

/-- Witness for C10 at a concrete out-of-range input. -/
theorem c10_from_params_coerces_out_of_range_witness :
    (SerialConfig.from_params "COM9" 250000 9 "Mark" 3 "XonXoff" 50).data_bits
        = DataBits.eight ∧
    (SerialConfig.from_params "COM9" 250000 9 "Mark" 3 "XonXoff" 50).parity
        = Parity.par_none ∧
    (SerialConfig.from_params "COM9" 250000 9 "Mark" 3 "XonXoff" 50).stop_bits
        = StopBits.one ∧
    (SerialConfig.from_params "COM9" 250000 9 "Mark" 3 "XonXoff" 50).flow_control
        = FlowControl.fc_none :=
  have h := c10_from_params_coerces_out_of_range "COM9" 250000 9 "Mark" 3
    "XonXoff" 50
  ⟨h.1 (by decide) (by decide) (by decide),
    h.2.1 (by decide) (by decide),
    h.2.2.1 (by decide),
    h.2.2.2.1 (by decide) (by decide)⟩

/-- C9: on a transport whose `connect` never succeeded (no serial port
handle, no SSH channel handle), `read` and `send` fail with an error and
leave the manager unchanged — the read does not return an empty success. -/
theorem c9_never_connected_ops_fail
    (sm : SerialManager) (mm : SshManager) (data : List Nat)
    (wr : Except String Nat) (fr : Except String Unit) (r : IoReadResult)
    (dr : Except String Unit) (w : ChannelWait)
    (hs : sm.port = none) (hm : mm.channel = none) :
    (sm.read r).2 = Except.error "Port série non connecté" ∧
    (sm.send data wr fr).2 = Except.error "Port série non connecté" ∧
    (mm.read w).2 = Except.error "Canal SSH non disponible" ∧
    (mm.send data dr).2 = Except.error "Canal SSH non disponible" ∧
    (sm.read r).1 = sm ∧ (sm.send data wr fr).1 = sm ∧
    (mm.read w).1 = mm ∧ (mm.send data dr).1 = mm := by
  simp [SerialManager.read, SerialManager.send, SshManager.read,
    SshManager.send, hs, hm]

/-- Witness for C9 on freshly constructed managers. -/
theorem c9_never_connected_ops_fail_witness :
    (serialFresh.read IoReadResult.timedOut).2
        = Except.error "Port série non connecté" ∧
    (serialFresh.send [65] (Except.ok 1) (Except.ok ())).2
        = Except.error "Port série non connecté" ∧
    (sshFresh.read ChannelWait.waitTimeout).2
        = Except.error "Canal SSH non disponible" ∧
    (sshFresh.send [65] (Except.ok ())).2
        = Except.error "Canal SSH non disponible" :=
  have h := c9_never_connected_ops_fail serialFresh sshFresh [65]
    (Except.ok 1) (Except.ok ()) IoReadResult.timedOut (Except.ok ())
    ChannelWait.waitTimeout rfl rfl
  ⟨h.1, h.2.1, h.2.2.1, h.2.2.2.1⟩

/-- C6: serial `read` in the connected state maps a zero-length read to
state `Disconnected` with an empty successful result (counters
unchanged), a timeout or would-block condition to an empty successful
result with the manager unchanged, any other I/O error to state `Error`
with the error reported, and an `n`-byte read (`n > 0`) to exactly those
bytes with `bytes_received` increased by `n`. -/
theorem c6_serial_read_cases (m : SerialManager)
    (hp : m.port = some ()) :
    ((m.read (IoReadResult.ok [])).1.state = ConnectionState.disconnected ∧
      (m.read (IoReadResult.ok [])).2 = Except.ok [] ∧
      (m.read (IoReadResult.ok [])).1.bytes_received = m.bytes_received ∧
      (m.read (IoReadResult.ok [])).1.bytes_sent = m.bytes_sent) ∧
    m.read IoReadResult.timedOut = (m, Except.ok []) ∧
    m.read IoReadResult.wouldBlock = (m, Except.ok []) ∧
    (∀ msg, (m.read (IoReadResult.ioErr msg)).1.state = ConnectionState.error ∧
      (m.read (IoReadResult.ioErr msg)).2 = Except.error msg) ∧
    (∀ b bs, (m.read (IoReadResult.ok (b :: bs))).2 = Except.ok (b :: bs) ∧
      (m.read (IoReadResult.ok (b :: bs))).1.bytes_received
          = m.bytes_received + (b :: bs).length ∧
      (m.read (IoReadResult.ok (b :: bs))).1.state = m.state) := by
  simp [SerialManager.read, hp]

/-- Witness for C6 on a concrete connected serial manager. -/
theorem c6_serial_read_cases_witness :
    (serialConnected.read (IoReadResult.ok [])).1.state
        = ConnectionState.disconnected ∧
    serialConnected.read IoReadResult.timedOut
        = (serialConnected, Except.ok []) ∧
    (serialConnected.read (IoReadResult.ioErr "boom")).1.state
        = ConnectionState.error ∧
    (serialConnected.read (IoReadResult.ok [65, 84])).2
        = Except.ok [65, 84] ∧
    (serialConnected.read (IoReadResult.ok [65, 84])).1.bytes_received
        = serialConnected.bytes_received + 2 :=
  have h := c6_serial_read_cases serialConnected rfl
  ⟨h.1.1, h.2.1, (h.2.2.2.1 "boom").1, (h.2.2.2.2 65 [84]).1,
    (h.2.2.2.2 65 [84]).2.1⟩

/-- C7: SSH `read` in the connected state returns the payload and counts
it for data and extended-data messages, marks the manager `Disconnected`
with an empty result for EOF, Close and an unexpectedly closed channel,
returns an empty result with the manager unchanged for other control
messages and for a timed-out wait, and never returns an error. -/
theorem c7_ssh_read_cases (m : SshManager)
    (hc : m.channel = some ()) :
    (∀ d, (m.read (ChannelWait.dataMsg d)).2 = Except.ok d ∧
      (m.read (ChannelWait.dataMsg d)).1.bytes_received
          = m.bytes_received + d.length ∧
      (m.read (ChannelWait.dataMsg d)).1.state = m.state) ∧
    (∀ d, (m.read (ChannelWait.extendedDataMsg d)).2 = Except.ok d ∧
      (m.read (ChannelWait.extendedDataMsg d)).1.bytes_received
          = m.bytes_received + d.length ∧
      (m.read (ChannelWait.extendedDataMsg d)).1.state = m.state) ∧
    ((m.read ChannelWait.eofMsg).1.state = ConnectionState.disconnected ∧
      (m.read ChannelWait.eofMsg).2 = Except.ok []) ∧
    ((m.read ChannelWait.closeMsg).1.state = ConnectionState.disconnected ∧
      (m.read ChannelWait.closeMsg).2 = Except.ok []) ∧
    ((m.read ChannelWait.chanClosed).1.state = ConnectionState.disconnected ∧
      (m.read ChannelWait.chanClosed).2 = Except.ok []) ∧
    m.read ChannelWait.successMsg = (m, Except.ok []) ∧
    m.read ChannelWait.otherCtl = (m, Except.ok []) ∧
    m.read ChannelWait.waitTimeout = (m, Except.ok []) ∧
    (∀ w, ∃ v, (m.read w).2 = Except.ok v) := by
  refine ⟨?_, ?_, ?_, ?_, ?_, ?_, ?_, ?_, ?_⟩
  · simp [SshManager.read, hc]
  · simp [SshManager.read, hc]
  · simp [SshManager.read, hc]
  · simp [SshManager.read, hc]
  · simp [SshManager.read, hc]
  · simp [SshManager.read, hc]
  · simp [SshManager.read, hc]
  · simp [SshManager.read, hc]
  · intro w
    cases w <;> simp [SshManager.read, hc]

/-- Witness for C7 on a concrete connected SSH manager. -/
theorem c7_ssh_read_cases_witness :
    (sshConnected.read (ChannelWait.dataMsg [104, 105])).2
        = Except.ok [104, 105] ∧
    (sshConnected.read (ChannelWait.dataMsg [104, 105])).1.bytes_received
        = sshConnected.bytes_received + 2 ∧
    (sshConnected.read ChannelWait.eofMsg).1.state
        = ConnectionState.disconnected ∧
    (sshConnected.read ChannelWait.chanClosed).1.state
        = ConnectionState.disconnected ∧
    sshConnected.read ChannelWait.waitTimeout = (sshConnected, Except.ok []) :=
  have h := c7_ssh_read_cases sshConnected rfl
  ⟨(h.1 [104, 105]).1, (h.1 [104, 105]).2.1, h.2.2.1.1, h.2.2.2.2.1.1,
    h.2.2.2.2.2.2.2.1⟩

/-- C8: `disconnect` is idempotent for both transports and every starting
state: it always succeeds, leaves the byte counters unchanged and the
state `Disconnected`; when the manager is already `Disconnected` it is
returned unchanged; and a second `disconnect` in a row succeeds and
changes nothing. -/
theorem c8_disconnect_idempotent (sm : SerialManager) (mm : SshManager) :
    ((sm.disconnect).2 = Except.ok () ∧
      (sm.disconnect).1.state = ConnectionState.disconnected ∧
      (sm.disconnect).1.bytes_sent = sm.bytes_sent ∧
      (sm.disconnect).1.bytes_received = sm.bytes_received ∧
      (sm.state = ConnectionState.disconnected → (sm.disconnect).1 = sm) ∧
      (sm.disconnect).1.disconnect = ((sm.disconnect).1, Except.ok ())) ∧
    ((mm.disconnect).2 = Except.ok () ∧
      (mm.disconnect).1.state = ConnectionState.disconnected ∧
      (mm.disconnect).1.bytes_sent = mm.bytes_sent ∧
      (mm.disconnect).1.bytes_received = mm.bytes_received ∧
      (mm.state = ConnectionState.disconnected → (mm.disconnect).1 = mm) ∧
      (mm.disconnect).1.disconnect = ((mm.disconnect).1, Except.ok ())) := by
  constructor
  · by_cases h : sm.state = ConnectionState.disconnected <;>
      simp [SerialManager.disconnect, h]
  · by_cases h : mm.state = ConnectionState.disconnected <;>
      simp [SshManager.disconnect, h]

/-- Witness for C8 on concrete connected managers. -/
theorem c8_disconnect_idempotent_witness :
    (serialConnected.disconnect).2 = Except.ok () ∧
    (serialConnected.disconnect).1.state = ConnectionState.disconnected ∧
    (serialConnected.disconnect).1.disconnect
        = ((serialConnected.disconnect).1, Except.ok ()) ∧
    (sshConnected.disconnect).2 = Except.ok () ∧
    (sshConnected.disconnect).1.state = ConnectionState.disconnected ∧
    (sshConnected.disconnect).1.disconnect
        = ((sshConnected.disconnect).1, Except.ok ()) :=
  have h := c8_disconnect_idempotent serialConnected sshConnected
  ⟨h.1.1, h.1.2.1, h.1.2.2.2.2.2, h.2.1, h.2.2.1, h.2.2.2.2.2.2⟩

/-- C4 counterexample: a successful serial `send` of the 2-byte sequence
`[65, 84]` during which the OS accepts only 1 byte (`port.write` returns
`Ok(1)`, a short write) returns 1 and increases `bytes_sent` by 1, not by
the length 2 the claim requires for every successful send. -/
theorem c4_serial_short_write_counterexample :
    (serialConnected.send [65, 84] (Except.ok 1) (Except.ok ())).2
        = Except.ok 1 ∧
    (serialConnected.send [65, 84] (Except.ok 1) (Except.ok ())).1.bytes_sent
        = serialConnected.bytes_sent + 1 ∧
    ¬((serialConnected.send [65, 84] (Except.ok 1) (Except.ok ())).2
        = Except.ok 2) := by
  decide

/-- C4 (amended): a successful `send` increases `bytes_sent` by exactly
the count it returns; for the SSH transport that count is always the full
length of the data, and for the serial transport it is the count the
underlying `port.write` reports, which equals the full length whenever
the port accepts the whole buffer. -/
theorem c4_send_counts_written (sm : SerialManager) (mm : SshManager)
    (data : List Nat) (w : Nat) :
    (sm.port = some () →
      (sm.send data (Except.ok w) (Except.ok ())).2 = Except.ok w ∧
      (sm.send data (Except.ok w) (Except.ok ())).1.bytes_sent
          = sm.bytes_sent + w) ∧
    (sm.port = some () → w = data.length →
      (sm.send data (Except.ok w) (Except.ok ())).2 = Except.ok data.length ∧
      (sm.send data (Except.ok w) (Except.ok ())).1.bytes_sent
          = sm.bytes_sent + data.length) ∧
    (mm.channel = some () →
      (mm.send data (Except.ok ())).2 = Except.ok data.length ∧
      (mm.send data (Except.ok ())).1.bytes_sent
          = mm.bytes_sent + data.length) := by
  refine ⟨?_, ?_, ?_⟩
  · intro hp
    simp [SerialManager.send, hp]
  · intro hp hw
    subst hw
    simp [SerialManager.send, hp]
  · intro hc
    simp [SshManager.send, hc]

/-- Witness for the amended C4 on concrete connected managers. -/
theorem c4_send_counts_written_witness :
    (serialConnected.send [65, 84] (Except.ok 2) (Except.ok ())).2
        = Except.ok 2 ∧
    (serialConnected.send [65, 84] (Except.ok 2) (Except.ok ())).1.bytes_sent
        = serialConnected.bytes_sent + 2 ∧
    (sshConnected.send [65, 84] (Except.ok ())).2 = Except.ok 2 ∧
    (sshConnected.send [65, 84] (Except.ok ())).1.bytes_sent
        = sshConnected.bytes_sent + 2 :=
  have h := c4_send_counts_written serialConnected sshConnected [65, 84] 2
  ⟨(h.2.1 rfl rfl).1, (h.2.1 rfl rfl).2, (h.2.2 rfl).1, (h.2.2 rfl).2⟩

/-- Helper for C5: whenever an SSH `connect` on a manager not already
connected returns success or leaves the state `Connected`, every phase —
event channel injected, session establishment with an accepted host-key
check, authentication, channel open, PTY request, shell request — has
succeeded, the state is `Connected` and both counters are zero. -/
theorem ssh_connect_success_characterization (mm : SshManager)
    (est : EstablishInput) (auth : AuthOutcome)
    (chanOpen pty shell : Except String Unit)
    (hne : ¬ mm.state = ConnectionState.connected)
    (hdisj : (mm.connect est auth chanOpen pty shell).2.2 = Except.ok () ∨
      (mm.connect est auth chanOpen pty shell).1.state
          = ConnectionState.connected) :
    (mm.connect est auth chanOpen pty shell).1.state
        = ConnectionState.connected ∧
    (mm.connect est auth chanOpen pty shell).1.bytes_sent = 0 ∧
    (mm.connect est auth chanOpen pty shell).1.bytes_received = 0 ∧
    (mm.connect est auth chanOpen pty shell).2.2 = Except.ok () ∧
    mm.event_tx = true ∧
    auth = AuthOutcome.success ∧ chanOpen = Except.ok () ∧
    pty = Except.ok () ∧ shell = Except.ok () ∧
    ∃ kt fp lk d, est = EstablishInput.netOk kt fp lk d ∧
      (check_server_key mm.config.host kt fp lk d).accepted = true := by
  by_cases h2 : mm.event_tx = false
  · simp [SshManager.connect, hne, h2] at hdisj
  · cases est with
    | netErr msg =>
        simp [SshManager.connect, sshEstablish, hne, h2] at hdisj
    | netTimeout =>
        simp [SshManager.connect, sshEstablish, hne, h2] at hdisj
    | netOk kt fp lk d =>
        cases hacc : (check_server_key mm.config.host kt fp lk d).accepted with
        | false =>
            simp [SshManager.connect, sshEstablish, hne, h2, hacc] at hdisj
        | true =>
            cases auth with
            | authErr e =>
                simp [SshManager.connect, sshEstablish, hne, h2, hacc]
                  at hdisj
            | failed =>
                simp [SshManager.connect, sshEstablish, hne, h2, hacc]
                  at hdisj
            | success =>
                cases chanOpen with
                | error e =>
                    simp [SshManager.connect, sshEstablish, hne, h2, hacc]
                      at hdisj
                | ok u2 =>
                    cases pty with
                    | error e =>
                        simp [SshManager.connect, sshEstablish, hne, h2,
                          hacc] at hdisj
                    | ok u3 =>
                        cases shell with
                        | error e =>
                            simp [SshManager.connect, sshEstablish, hne,
                              h2, hacc] at hdisj
                        | ok u4 =>
                            simp only [Bool.not_eq_false] at h2
                            refine ⟨?_, ?_, ?_, ?_, h2, rfl, rfl, rfl,
                              rfl, kt, fp, lk, d, rfl, hacc⟩ <;>
                              simp [SshManager.connect, sshEstablish, hne,
                                h2, hacc]

/-- C5: for both transports, `connect` fails without changing the manager
when the state is already `Connected`; a successful `connect` leaves the
state `Connected` with both byte counters reset to zero; and the SSH
manager's state is `Connected` only when session establishment (with an
accepted host-key verification), authentication, channel open, PTY
request and shell request have all succeeded. -/
theorem c5_connect_guards_and_resets (sm : SerialManager) (mm : SshManager)
    (openResult : Except String Unit) (est : EstablishInput)
    (auth : AuthOutcome) (chanOpen pty shell : Except String Unit) :
    (sm.state = ConnectionState.connected →
      sm.connect openResult = (sm, Except.error "Déjà connecté")) ∧
    ((sm.connect openResult).2 = Except.ok () →
      (sm.connect openResult).1.state = ConnectionState.connected ∧
      (sm.connect openResult).1.bytes_sent = 0 ∧
      (sm.connect openResult).1.bytes_received = 0) ∧
    (mm.state = ConnectionState.connected →
      mm.connect est auth chanOpen pty shell
          = (mm, [], Except.error "Déjà connecté")) ∧
    ((mm.connect est auth chanOpen pty shell).2.2 = Except.ok () →
      (mm.connect est auth chanOpen pty shell).1.state
          = ConnectionState.connected ∧
      (mm.connect est auth chanOpen pty shell).1.bytes_sent = 0 ∧
      (mm.connect est auth chanOpen pty shell).1.bytes_received = 0) ∧
    (¬ mm.state = ConnectionState.connected →
      (mm.connect est auth chanOpen pty shell).1.state
          = ConnectionState.connected →
      (mm.event_tx = true ∧ auth = AuthOutcome.success ∧
        chanOpen = Except.ok () ∧ pty = Except.ok () ∧
        shell = Except.ok () ∧
        ∃ kt fp lk d, est = EstablishInput.netOk kt fp lk d ∧
          (check_server_key mm.config.host kt fp lk d).accepted = true)) := by
  refine ⟨?_, ?_, ?_, ?_, ?_⟩
  · intro h
    simp [SerialManager.connect, h]
  · intro h
    by_cases h1 : sm.state = ConnectionState.connected
    · simp [SerialManager.connect, h1] at h
    · cases openResult with
      | error e => simp [SerialManager.connect, h1] at h
      | ok _ => simp [SerialManager.connect, h1]
  · intro h
    simp [SshManager.connect, h]
  · intro h
    by_cases h1 : mm.state = ConnectionState.connected
    · simp [SshManager.connect, h1] at h
    · have hc := ssh_connect_success_characterization mm est auth chanOpen
        pty shell h1 (Or.inl h)
      exact ⟨hc.1, hc.2.1, hc.2.2.1⟩
  · intro h1 h
    have hc := ssh_connect_success_characterization mm est auth chanOpen
      pty shell h1 (Or.inr h)
    exact ⟨hc.2.2.2.2.1, hc.2.2.2.2.2.1, hc.2.2.2.2.2.2.1,
      hc.2.2.2.2.2.2.2.1, hc.2.2.2.2.2.2.2.2.1, hc.2.2.2.2.2.2.2.2.2⟩

/-- Witness for C5 on concrete managers: a connect on an
already-connected serial manager fails, and a fully successful SSH
connect on a fresh manager with the event sender injected leaves the
state `Connected` with zeroed counters. -/
theorem c5_connect_guards_and_resets_witness :
    serialConnected.connect (Except.ok ())
        = (serialConnected, Except.error "Déjà connecté") ∧
    ((sshFresh.init_event_sender).connect
        (EstablishInput.netOk "ssh-ed25519" "SHA256:abc"
          KnownHostsLookup.okKnown (DecisionOutcome.answered 0 true))
        AuthOutcome.success (Except.ok ()) (Except.ok ())
        (Except.ok ())).1.state = ConnectionState.connected ∧
    ((sshFresh.init_event_sender).connect
        (EstablishInput.netOk "ssh-ed25519" "SHA256:abc"
          KnownHostsLookup.okKnown (DecisionOutcome.answered 0 true))
        AuthOutcome.success (Except.ok ()) (Except.ok ())
        (Except.ok ())).1.bytes_sent = 0 :=
  have h := c5_connect_guards_and_resets serialConnected
    (sshFresh.init_event_sender) (Except.ok ())
    (EstablishInput.netOk "ssh-ed25519" "SHA256:abc"
      KnownHostsLookup.okKnown (DecisionOutcome.answered 0 true))
    AuthOutcome.success (Except.ok ()) (Except.ok ()) (Except.ok ())
  have hok := h.2.2.2.1 (by decide)
  ⟨h.1 rfl, hok.1, hok.2.1⟩

/-- C1: in the host-key verification callback, a known matching key is
accepted silently with no event and no store write; an unknown host or a
lookup error other than key-changed emits one `HostKeyUnknown` event with
`is_key_changed = false`; a changed key emits it with
`is_key_changed = true`; in every interactive case the callback's return
value is the decision resolved against the 300-second bound, where an
answer at or past the bound and a dropped channel both resolve to reject,
an accepted decision persists the key, and a rejected check aborts the
handshake while an accepted one lets it proceed. -/
theorem c1_host_key_verification
    (host kt fp : String) (line : Nat) (msg : String) (d : DecisionOutcome) :
    check_server_key host kt fp KnownHostsLookup.okKnown d
        = { events := [], accepted := true, learned := false } ∧
    (check_server_key host kt fp KnownHostsLookup.okUnknown d).events
        = [ConnectionEvent.hostKeyUnknown host kt fp false] ∧
    (check_server_key host kt fp (KnownHostsLookup.errOther msg) d).events
        = [ConnectionEvent.hostKeyUnknown host kt fp false] ∧
    (check_server_key host kt fp (KnownHostsLookup.errKeyChanged line) d).events
        = [ConnectionEvent.hostKeyUnknown host kt fp true] ∧
    (∀ lk, lk ≠ KnownHostsLookup.okKnown →
      (check_server_key host kt fp lk d).accepted = decisionResolve d ∧
      (check_server_key host kt fp lk d).learned
          = (check_server_key host kt fp lk d).accepted) ∧
    (∀ t b, hostKeyDecisionTimeoutSecs ≤ t →
      decisionResolve (DecisionOutcome.answered t b) = false) ∧
    (∀ t, decisionResolve (DecisionOutcome.dropped t) = false) ∧
    hostKeyDecisionTimeoutSecs = 300 ∧
    (∀ lk, (check_server_key host kt fp lk d).accepted = false →
      (sshEstablish host (EstablishInput.netOk kt fp lk d)).2
          = Except.error "Clé de serveur refusée") ∧
    (∀ lk, (check_server_key host kt fp lk d).accepted = true →
      (sshEstablish host (EstablishInput.netOk kt fp lk d)).2
          = Except.ok ()) := by
  refine ⟨rfl, rfl, rfl, rfl, ?_, ?_, fun t => rfl, rfl, ?_, ?_⟩
  · intro lk hlk
    cases lk <;> simp_all [check_server_key]
  · intro t b ht
    simp [decisionResolve, Nat.not_lt.mpr ht]
  · intro lk hacc
    simp [sshEstablish, hacc]
  · intro lk hacc
    simp [sshEstablish, hacc]

/-- Witness for C1 at concrete inputs: a known key is silently accepted,
an unknown host's acceptance follows the timely answer, an answer past
the 300-second bound and a dropped channel resolve to reject, and a
rejected check fails the handshake. -/
theorem c1_host_key_verification_witness :
    check_server_key "example.test" "ssh-ed25519" "SHA256:abc"
        KnownHostsLookup.okKnown (DecisionOutcome.answered 1 true)
        = { events := [], accepted := true, learned := false } ∧
    (check_server_key "example.test" "ssh-ed25519" "SHA256:abc"
        KnownHostsLookup.okUnknown (DecisionOutcome.answered 1 true)).accepted
        = decisionResolve (DecisionOutcome.answered 1 true) ∧
    decisionResolve (DecisionOutcome.answered 301 true) = false ∧
    decisionResolve (DecisionOutcome.dropped 0) = false ∧
    (sshEstablish "example.test"
        (EstablishInput.netOk "ssh-ed25519" "SHA256:abc"
          KnownHostsLookup.okUnknown (DecisionOutcome.dropped 0))).2
        = Except.error "Clé de serveur refusée" :=
  have h1 := c1_host_key_verification "example.test" "ssh-ed25519"
    "SHA256:abc" 3 "oops" (DecisionOutcome.answered 1 true)
  have h2 := c1_host_key_verification "example.test" "ssh-ed25519"
    "SHA256:abc" 3 "oops" (DecisionOutcome.dropped 0)
  ⟨h1.1,
    (h1.2.2.2.2.1 KnownHostsLookup.okUnknown (by decide)).1,
    h1.2.2.2.2.2.1 301 true (by decide),
    h1.2.2.2.2.2.2.1 0,
    h2.2.2.2.2.2.2.2.2.1 KnownHostsLookup.okUnknown (by decide)⟩

/-- Helper for C3: number of terminal events contributed by one list
element. -/
theorem terminalCount_cons (e : ConnectionEvent) (evs : List ConnectionEvent) :
    terminalCount (e :: evs)
        = terminalCount evs + (if isTerminalEvent e then 1 else 0) := by
  simp only [terminalCount, List.filter_cons]
  split <;> simp [Nat.add_comm]

/-- Helper for C3: along the actor's I/O loop, at most one terminal event
is ever attempted; a loop still running has attempted none; a loop that
exited attempted exactly one, except through the failed `DataReceived`
send, where it attempted none. -/
theorem actorLoop_terminalCount (loop : List LoopInput) :
    terminalCount (actorLoop loop).1 ≤ 1 ∧
    ((actorLoop loop).2 = false → terminalCount (actorLoop loop).1 = 0) ∧
    ((actorLoop loop).2 = true →
      terminalCount (actorLoop loop).1
          = if consumerGoneExit loop then 0 else 1) := by
  induction loop with
  | nil => simp [actorLoop, terminalCount]
  | cons i rest ih =>
      cases i with
      | cmdSendOk d =>
          simpa [actorLoop, consumerGoneExit] using ih
      | cmdSendErr d m =>
          simp [actorLoop, consumerGoneExit, terminalCount, isTerminalEvent]
      | cmdDisconnect =>
          simp [actorLoop, consumerGoneExit, terminalCount, isTerminalEvent]
      | cmdClosed =>
          simp [actorLoop, consumerGoneExit, terminalCount, isTerminalEvent]
      | readData b bs alive =>
          cases alive with
          | true =>
              obtain ⟨ih1, ih2, ih3⟩ := ih
              refine ⟨?_, ?_, ?_⟩ <;>
                simp [actorLoop, consumerGoneExit, terminalCount_cons,
                  isTerminalEvent]
              · exact ih1
              · exact ih2
              · exact ih3
          | false =>
              simp [actorLoop, consumerGoneExit, terminalCount]
      | readEmpty s =>
          by_cases hs : s = ConnectionState.disconnected ∨
              s = ConnectionState.error
          · simp [actorLoop, consumerGoneExit, hs, terminalCount,
              isTerminalEvent]
          · simpa [actorLoop, consumerGoneExit, hs] using ih
      | readErr m =>
          simp [actorLoop, consumerGoneExit, terminalCount, isTerminalEvent]

/-- C3 counterexample: the actor run that connects successfully and then
exits because the `DataReceived` send fails (consumer gone) terminates
having emitted zero events from {Error, Disconnected}, not exactly one as
the claim states for every terminal path. -/
theorem c3_consumer_gone_counterexample :
    (actorRun (Except.ok (ConnectionType.serial, "COM1 @ 9600"))
        [LoopInput.readData 65 [] false]).2 = true ∧
    terminalCount (actorRun (Except.ok (ConnectionType.serial, "COM1 @ 9600"))
        [LoopInput.readData 65 [] false]).1 = 0 := by
  decide

/-- C3 (amended): no actor run ever attempts more than one terminal event
(`Error` or `Disconnected`), and every run that reaches its end attempts
exactly one — including the connect-failure, send-failure, read-failure,
disconnect-command and command-channel-closed paths — except the path
where a `DataReceived` send fails because the consumer is gone, which
terminates without attempting any terminal event. -/
theorem c3_one_terminal_event (cr : Except String (ConnectionType × String))
    (loop : List LoopInput) :
    terminalCount (actorRun cr loop).1 ≤ 1 ∧
    ((actorRun cr loop).2 = true →
      terminalCount (actorRun cr loop).1
          = (match cr with
             | Except.error _ => 1
             | Except.ok _ => if consumerGoneExit loop then 0 else 1)) := by
  cases cr with
  | error e => simp [actorRun, terminalCount, isTerminalEvent]
  | ok td =>
      have h := actorLoop_terminalCount loop
      constructor
      · simpa [actorRun, terminalCount_cons, isTerminalEvent] using h.1
      · intro ht
        simp only [actorRun] at ht
        simpa [actorRun, terminalCount_cons, isTerminalEvent]
          using h.2.2 ht

/-- Witness for the amended C3: a failed connect emits exactly one
terminal event, and a run ended by a Disconnect command emits exactly
one. -/
theorem c3_one_terminal_event_witness :
    terminalCount (actorRun (Except.error "open failed") []).1 = 1 ∧
    terminalCount (actorRun (Except.ok (ConnectionType.ssh, "u@h:22"))
        [LoopInput.cmdSendOk [65], LoopInput.cmdDisconnect]).1 = 1 ∧
    terminalCount (actorRun (Except.ok (ConnectionType.ssh, "u@h:22"))
        [LoopInput.cmdSendOk [65], LoopInput.cmdDisconnect]).1 ≤ 1 :=
  have h1 := c3_one_terminal_event (Except.error "open failed") []
  have h2 := c3_one_terminal_event (Except.ok (ConnectionType.ssh, "u@h:22"))
    [LoopInput.cmdSendOk [65], LoopInput.cmdDisconnect]
  ⟨h1.2 (by decide), h2.2 (by decide), h2.1⟩

/-- C2 counterexample: with the event channel full (128 queued events)
and the receiver open but never drained, the actor's next `DataReceived`
send suspends forever; the run does not terminate, contrary to the
claim. -/
theorem c2_full_channel_counterexample :
    actorLoopBP { queued := 128, closed := false } [BPInput.bpReadData]
        = BPOutcome.blockedForever ∧
    ¬(actorLoopBP { queued := 128, closed := false } [BPInput.bpReadData]
        = BPOutcome.terminated) := by
  decide

/-- C2 (amended): the event channel's capacity is 128 and the actor never
buffers beyond it; when the receiver is closed (dropped), the actor never
suspends on a send and terminates at its first event-emitting iteration,
observing the failed send as a disconnect signal; but when the receiver
is merely full and never drained while staying open, the actor suspends
forever on the next `DataReceived` send instead of terminating. -/
theorem c2_backpressure (q : Nat) (script rest : List BPInput)
    (i : BPInput) (c c2 : EventChan) :
    eventChanCapacity = 128 ∧
    (actorLoopBP { queued := q, closed := true } script
        ≠ BPOutcome.blockedForever) ∧
    (BPInput.emits i = true →
      actorLoopBP { queued := q, closed := true } (i :: rest)
          = BPOutcome.terminated) ∧
    (chanSend c = SendOutcome.delivered c2 →
      c2.queued ≤ eventChanCapacity) ∧
    (eventChanCapacity ≤ q →
      actorLoopBP { queued := q, closed := false }
          (BPInput.bpReadData :: rest) = BPOutcome.blockedForever) := by
  refine ⟨rfl, ?_, ?_, ?_, ?_⟩
  · induction script with
    | nil => simp [actorLoopBP]
    | cons j rest2 ih =>
        cases j with
        | bpCmdSendOk => simpa [actorLoopBP] using ih
        | bpCmdSendErr => simp [actorLoopBP, chanSend]
        | bpCmdDisconnect => simp [actorLoopBP, chanSend]
        | bpReadData => simp [actorLoopBP, chanSend]
        | bpReadEmpty s =>
            by_cases hs : s = ConnectionState.disconnected ∨
                s = ConnectionState.error
            · simp [actorLoopBP, hs, chanSend]
            · simpa [actorLoopBP, hs] using ih
        | bpReadErr => simp [actorLoopBP, chanSend]
  · intro hi
    cases i with
    | bpCmdSendOk => simp [BPInput.emits] at hi
    | bpCmdSendErr => simp [actorLoopBP, chanSend]
    | bpCmdDisconnect => simp [actorLoopBP, chanSend]
    | bpReadData => simp [actorLoopBP, chanSend]
    | bpReadEmpty s =>
        by_cases hs : s = ConnectionState.disconnected ∨
            s = ConnectionState.error
        · simp [actorLoopBP, hs, chanSend]
        · simp [BPInput.emits, hs] at hi
    | bpReadErr => simp [actorLoopBP, chanSend]
  · intro h
    by_cases hcl : c.closed
    · simp [chanSend, hcl] at h
    · by_cases hq : eventChanCapacity ≤ c.queued
      · simp [chanSend, hcl, hq] at h
      · simp [chanSend, hcl, hq] at h
        have h2q : c2.queued = c.queued + 1 := by rw [← h]
        rw [h2q]
        omega
  · intro hq
    simp [actorLoopBP, chanSend, hq]

/-- Witness for the amended C2: the closed-receiver run terminates, a
delivered send stays within the capacity bound, and the full open
never-drained channel blocks the actor forever. -/
theorem c2_backpressure_witness :
    eventChanCapacity = 128 ∧
    actorLoopBP { queued := 5, closed := true } [BPInput.bpReadErr]
        = BPOutcome.terminated ∧
    (({ queued := 1, closed := false } : EventChan)).queued
        ≤ eventChanCapacity ∧
    actorLoopBP { queued := 128, closed := false }
        [BPInput.bpReadData, BPInput.bpReadErr] = BPOutcome.blockedForever :=
  have h := c2_backpressure 5 [] [] BPInput.bpReadErr
    { queued := 0, closed := false } { queued := 1, closed := false }
  have h128 := c2_backpressure 128 [] [BPInput.bpReadErr] BPInput.bpReadErr
    { queued := 0, closed := false } { queued := 1, closed := false }
  ⟨h.1, h.2.2.1 rfl, h.2.2.2.1 (by decide), h128.2.2.2.2 (by decide)⟩

end SerialSSHTerm
